import Mathlib

/-!
Shallow embedding of the token-based WebSocket relay server
(`src/ws-server.js`): per-token rooms with one slot per role,
admission/eviction, signal forwarding, heartbeat, presence broadcast.

Connections are identified by natural numbers.  The mutable server state
(the `rooms` map and the transport state of each connection) is passed
explicitly; every handler returns the new state together with the list of
observable output effects (frames sent, transport closes requested), in
the order the source performs them.
-/

namespace WsRelay

abbrev ConnId := Nat

/-- Transport readiness of a WebSocket, the part of `readyState` the
server core inspects (`ws.readyState === WebSocket.OPEN`). -/
inductive RState
  | OPEN
  | CLOSING
  | CLOSED
deriving DecidableEq

/-- Per-connection bookkeeping: current transport state, and the
`(token, role)` pair captured by the handler closures once the
connection was admitted (none while unauthenticated/rejected). -/
structure ConnInfo where
  rstate : RState
  auth : Option (String × String)
deriving DecidableEq

/-- A room as in the source (line 15): `{ desktop: WebSocket|null, web: WebSocket|null }`. -/
structure Room where
  desktop : Option ConnId
  web : Option ConnId
deriving DecidableEq

def Room.empty : Room := ⟨none, none⟩

/-- Server→client frames, one constructor per JSON shape the source serializes. -/
inductive Frame
  | error (message : String)
  | connected (role token : String)
  | status (desktop web : Bool)
  | signal (name : String)
  | pong
deriving DecidableEq

/-- Observable output actions of a handler: `ws.send(frame)` and
`ws.close(code, reason)`. -/
inductive Effect
  | send (dst : ConnId) (f : Frame)
  | closeConn (c : ConnId) (code : Nat) (reason : String)
deriving DecidableEq

/-- The whole mutable server state: the `rooms` map (line 11, as an
association list token → room) and the transport/auth state of every
known connection. -/
structure ServerState where
  rooms : List (String × Room)
  conns : List (ConnId × ConnInfo)
deriving DecidableEq

def initState : ServerState := ⟨[], []⟩

def lookupRoom (rooms : List (String × Room)) (t : String) : Option Room :=
  match rooms with
  | [] => none
  | (k, r) :: rest => if k = t then some r else lookupRoom rest t

def setRoom (rooms : List (String × Room)) (t : String) (room : Room) :
    List (String × Room) :=
  match rooms with
  | [] => [(t, room)]
  | (k, r) :: rest => if k = t then (k, room) :: rest else (k, r) :: setRoom rest t room

def connOf (conns : List (ConnId × ConnInfo)) (c : ConnId) : Option ConnInfo :=
  match conns with
  | [] => none
  | (k, i) :: rest => if k = c then some i else connOf rest c

def setConn (conns : List (ConnId × ConnInfo)) (c : ConnId) (i : ConnInfo) :
    List (ConnId × ConnInfo) :=
  match conns with
  | [] => [(c, i)]
  | (k, j) :: rest => if k = c then (k, i) :: rest else (k, j) :: setConn rest c i

/-- Update only the transport state of a known connection (no-op on an
unknown id). -/
def setRState (st : ServerState) (c : ConnId) (s : RState) : ServerState :=
  match connOf st.conns c with
  | none => st
  | some i => { st with conns := setConn st.conns c ⟨s, i.auth⟩ }

/-- Calling `ws.close(...)` moves the transport out of OPEN at once. -/
def closeWs (st : ServerState) (c : ConnId) : ServerState :=
  setRState st c RState.CLOSING

def isOpen (st : ServerState) (c : ConnId) : Bool :=
  match connOf st.conns c with
  | some i =>
    match i.rstate with
    | RState.OPEN => true
    | _ => false
  | none => false

def authOf (st : ServerState) (c : ConnId) : Option (String × String) :=
  match connOf st.conns c with
  | some i => i.auth
  | none => none

/-- Source lines 13–18: `getOrCreateRoom(token)`. -/
def getOrCreateRoom (rooms : List (String × Room)) (t : String) :
    Room × List (String × Room) :=
  match lookupRoom rooms t with
  | some r => (r, rooms)
  | none => (Room.empty, setRoom rooms t Room.empty)

/-- Dynamic slot access `room[role]` for the two validated role strings. -/
def Room.get (room : Room) (r : String) : Option ConnId :=
  if r = "desktop" then room.desktop
  else if r = "web" then room.web
  else none

/-- Dynamic slot store `room[role] = v`. -/
def Room.set (room : Room) (r : String) (v : Option ConnId) : Room :=
  if r = "desktop" then { room with desktop := v }
  else if r = "web" then { room with web := v }
  else room

/-- Source lines 20–25: `cleanupSocket(room, role)` — guards against a
null room, then sets `room[role] = null` unconditionally. -/
def cleanupSocket (room : Option Room) (r : String) : Option Room :=
  match room with
  | none => none
  | some room => some (Room.set room r none)

/-- Source lines 27–36: `broadcastStatus(token)` — no-op when no room;
otherwise build the status payload once from `!!room.desktop` /
`!!room.web` and send it to each slot occupant whose transport is OPEN. -/
def broadcastStatus (st : ServerState) (t : String) : List Effect :=
  match lookupRoom st.rooms t with
  | none => []
  | some room =>
    let payload := Frame.status room.desktop.isSome room.web.isSome
    (([room.desktop, room.web].filterMap id).filter (fun c => isOpen st c)).map
      (fun c => Effect.send c payload)

/-- Result of `JSON.parse` on an inbound frame, abstracted to the three
properties the router reads: truthiness of the parsed value, and its
`type` / `name` string fields (none when absent or not a string). -/
structure JsMsg where
  truthy : Bool
  type : Option String
  name : Option String
deriving DecidableEq

/-- An inbound raw frame: either it fails `JSON.parse`, or it parses. -/
inductive InMsg
  | unparseable
  | parsed (m : JsMsg)
deriving DecidableEq

/-- Source line 76: the paired role. -/
def peerRole (r : String) : String :=
  if r = "desktop" then "web" else "desktop"

/-- Source lines 68–90: the per-frame message handler of an admitted
connection with captured `token`/`role`.  The room captured by the
closure is always the registry entry for the token (the registry never
deletes), hence the lookup. -/
def handleMessage (st : ServerState) (c : ConnId) (t r : String) (raw : InMsg) :
    ServerState × List Effect :=
  match raw with
  | InMsg.unparseable => (st, [Effect.send c (Frame.error "Invalid JSON")])
  | InMsg.parsed m =>
    if m.truthy && m.type == some "signal"
        && (m.name == some "signal-1" || m.name == some "signal-2") then
      let pr := peerRole r
      let room := (lookupRoom st.rooms t).getD Room.empty
      match Room.get room pr with
      | some peer =>
        if isOpen st peer then
          (st, [Effect.send peer (Frame.signal (m.name.getD ""))])
        else
          (st, [Effect.send c (Frame.error "Peer not connected")])
      | none => (st, [Effect.send c (Frame.error "Peer not connected")])
    else if m.truthy && m.type == some "ping" then
      (st, [Effect.send c Frame.pong])
    else
      (st, [])

/-- JS truthiness of a query parameter: absent (`null`) and the empty
string are falsy. -/
def truthyStr : Option String → Bool
  | none => false
  | some s => !(s == "")

/-- Source line 51: the admission predicate
`!(!token || !role || !includes(role))`. -/
def admissionOk (token role : Option String) : Bool :=
  truthyStr token && truthyStr role
    && (role == some "desktop" || role == some "web")

/-- Source lines 45–66: the connection handler.  The fresh transport is
registered OPEN; on invalid parameters it gets one error frame and a
1008 close and no room is touched; otherwise the room is created on
demand, an OPEN previous occupant of the slot is closed with 4000,
the new connection is installed, acknowledged, and a status broadcast
for the token runs on the resulting state. -/
def handleConnection (st : ServerState) (c : ConnId) (token role : Option String) :
    ServerState × List Effect :=
  let st0 : ServerState := { st with conns := setConn st.conns c ⟨RState.OPEN, none⟩ }
  if admissionOk token role then
    let t := token.getD ""
    let r := role.getD ""
    let (room, rooms1) := getOrCreateRoom st0.rooms t
    let (st1, evictEffs) :=
      match Room.get room r with
      | some old =>
        if isOpen st0 old then
          (closeWs st0 old, [Effect.closeConn old 4000 "Replaced by new connection"])
        else (st0, [])
      | none => (st0, [])
    let room2 := Room.set room r (some c)
    let st2 : ServerState := { st1 with rooms := setRoom rooms1 t room2 }
    let st3 : ServerState := { st2 with conns := setConn st2.conns c ⟨RState.OPEN, some (t, r)⟩ }
    (st3, evictEffs ++ [Effect.send c (Frame.connected r t)] ++ broadcastStatus st3 t)
  else
    (closeWs st0 c,
     [Effect.send c (Frame.error "Invalid token or role"),
      Effect.closeConn c 1008 "Invalid token/role"])

/-- Source lines 92–100: body shared by the `close` and `error` handlers
of an admitted connection — `cleanupSocket(room, role)` then
`broadcastStatus(token)`. -/
def handleTeardown (st : ServerState) (t r : String) : ServerState × List Effect :=
  match cleanupSocket (lookupRoom st.rooms t) r with
  | none => (st, broadcastStatus st t)
  | some room2 =>
    let st2 : ServerState := { st with rooms := setRoom st.rooms t room2 }
    (st2, broadcastStatus st2 t)

/-- External events driving the server: a new transport connection with
its query parameters, an inbound frame, the asynchronous `close` /
`error` callbacks, and a transport dying without its callback having
run yet. -/
inductive Event
  | connect (c : ConnId) (token role : Option String)
  | message (c : ConnId) (raw : InMsg)
  | closeEvt (c : ConnId)
  | errorEvt (c : ConnId)
  | transportFail (c : ConnId)
deriving DecidableEq

/-- One event-loop turn.  `message`/`close`/`error` handlers exist only
on connections that passed admission (the source registers them after
the early return), so unauthenticated connections dispatch to nothing. -/
def step (st : ServerState) (e : Event) : ServerState × List Effect :=
  match e with
  | Event.connect c token role => handleConnection st c token role
  | Event.message c raw =>
    match authOf st c with
    | some (t, r) => handleMessage st c t r raw
    | none => (st, [])
  | Event.closeEvt c =>
    let st1 := setRState st c RState.CLOSED
    match authOf st1 c with
    | some (t, r) => handleTeardown st1 t r
    | none => (st1, [])
  | Event.errorEvt c =>
    match authOf st c with
    | some (t, r) => handleTeardown st t r
    | none => (st, [])
  | Event.transportFail c => (setRState st c RState.CLOSED, [])

def runEvents (evs : List Event) : ServerState :=
  evs.foldl (fun s e => (step s e).1) initState

/-- The occupant of the `(token, role)` slot, if any. -/
def roomSlot (st : ServerState) (t r : String) : Option ConnId :=
  (lookupRoom st.rooms t).bind (fun room => Room.get room r)

/-- Connection `c` occupies the `(t, r)` slot with an open transport. -/
def occupies (st : ServerState) (t r : String) (c : ConnId) : Prop :=
  roomSlot st t r = some c ∧ isOpen st c = true

instance (st : ServerState) (t r : String) (c : ConnId) :
    Decidable (occupies st t r c) := by
  unfold occupies
  infer_instance

/-! ## Basic lemmas about the state-manipulation primitives -/

theorem connOf_setConn_self (conns : List (ConnId × ConnInfo)) (c : ConnId) (i : ConnInfo) :
    connOf (setConn conns c i) c = some i := by
  induction conns with
  | nil => simp [setConn, connOf]
  | cons hd tl ih =>
    obtain ⟨k, j⟩ := hd
    by_cases hk : k = c
    · simp [setConn, connOf, hk]
    · simp [setConn, connOf, hk, ih]

theorem connOf_setConn_ne (conns : List (ConnId × ConnInfo)) (c c' : ConnId) (i : ConnInfo)
    (h : c' ≠ c) : connOf (setConn conns c i) c' = connOf conns c' := by
  induction conns with
  | nil => simp [setConn, connOf, Ne.symm h]
  | cons hd tl ih =>
    obtain ⟨k, j⟩ := hd
    by_cases hk : k = c
    · subst hk
      simp [setConn, connOf, Ne.symm h]
    · simp [setConn, connOf, hk, ih]

theorem lookupRoom_setRoom_self (rooms : List (String × Room)) (t : String) (room : Room) :
    lookupRoom (setRoom rooms t room) t = some room := by
  induction rooms with
  | nil => simp [setRoom, lookupRoom]
  | cons hd tl ih =>
    obtain ⟨k, r⟩ := hd
    by_cases hk : k = t
    · simp [setRoom, lookupRoom, hk]
    · simp [setRoom, lookupRoom, hk, ih]

theorem rooms_setRState (st : ServerState) (c : ConnId) (s : RState) :
    (setRState st c s).rooms = st.rooms := by
  unfold setRState
  cases connOf st.conns c <;> rfl

theorem authOf_setRState (st : ServerState) (c : ConnId) (s : RState) (c' : ConnId) :
    authOf (setRState st c s) c' = authOf st c' := by
  unfold setRState authOf
  cases h : connOf st.conns c with
  | none => rfl
  | some i =>
    by_cases hc : c' = c
    · subst hc
      simp [connOf_setConn_self, h]
    · simp [connOf_setConn_ne _ _ _ _ hc]

theorem Room.get_set_none (room : Room) (r : String) :
    Room.get (Room.set room r none) r = none := by
  unfold Room.get Room.set
  split_ifs <;> simp_all

theorem Room.get_empty (r : String) : Room.get Room.empty r = none := by
  unfold Room.get Room.empty
  split_ifs <;> rfl

/-! ## C1: teardown and the close/evict race -/

/-- Trace: connection 1 is admitted as ("abc", desktop), then connection 2
is admitted for the same slot, evicting connection 1. -/
def evsC1 : List Event :=
  [Event.connect 1 (some "abc") (some "desktop"),
   Event.connect 2 (some "abc") (some "desktop")]

/-- C1 counterexample: after connection 2 replaces connection 1 in the
("abc", desktop) slot, the delayed close callback of the evicted
connection 1 still clears the slot now occupied by connection 2 — the
teardown handler performs no identity check, so the slot is not left
unchanged as the claim states. -/
theorem c1_counterexample :
    roomSlot (runEvents evsC1) "abc" "desktop" = some 2 ∧
    (2 : ConnId) ≠ 1 ∧
    authOf (runEvents evsC1) 1 = some ("abc", "desktop") ∧
    roomSlot ((step (runEvents evsC1) (Event.closeEvt 1)).1) "abc" "desktop" = none := by
  decide

theorem teardown_clears (st : ServerState) (t r : String) :
    roomSlot (handleTeardown st t r).1 t r = none := by
  unfold handleTeardown cleanupSocket
  cases hl : lookupRoom st.rooms t with
  | none => simp [roomSlot, hl]
  | some room => simp [roomSlot, lookupRoom_setRoom_self, Room.get_set_none]

/-- C1 amended: on close of an authenticated connection with token `t`
and role `r`, the teardown handler clears the `(t, r)` slot
unconditionally — whether or not that slot still holds this specific
connection. -/
theorem c1_amended (st : ServerState) (c : ConnId) (t r : String)
    (hauth : authOf st c = some (t, r)) :
    roomSlot ((step st (Event.closeEvt c)).1) t r = none := by
  have h1 : authOf (setRState st c RState.CLOSED) c = some (t, r) := by
    rw [authOf_setRState]
    exact hauth
  simp only [step, h1]
  exact teardown_clears _ t r

/-- C1 amended witness: the amended theorem applied to the eviction-race
trace. -/
theorem c1_amended_witness :
    roomSlot ((step (runEvents evsC1) (Event.closeEvt 1)).1) "abc" "desktop" = none :=
  c1_amended (runEvents evsC1) 1 "abc" "desktop" (by decide)

/-! ## C2: the presence snapshot of the status broadcaster -/

/-- Trace: desktop 1 and web 2 are admitted under "abc", then the
transport of connection 1 dies before its close callback has run. -/
def evsC2 : List Event :=
  [Event.connect 1 (some "abc") (some "desktop"),
   Event.connect 2 (some "abc") (some "web"),
   Event.transportFail 1]

/-- C2 counterexample: connection 1 occupies the desktop slot but its
transport is no longer open, yet the broadcast payload reports
`desktop = true` — the snapshot booleans come from slot non-emptiness,
not from transport openness as the claim states. -/
theorem c2_counterexample :
    roomSlot (runEvents evsC2) "abc" "desktop" = some 1 ∧
    isOpen (runEvents evsC2) 1 = false ∧
    broadcastStatus (runEvents evsC2) "abc" =
      [Effect.send 2 (Frame.status true true)] := by
  decide

/-- C2 amended: `broadcastStatus` is a no-op when no room exists for the
token; otherwise a frame is sent to exactly the slot occupants whose
transport is currently open, and every such frame is the identical
status payload whose booleans record slot non-emptiness (a slot holding
a connection counts as present even if that connection is no longer
open). -/
theorem c2_amended (st : ServerState) (t : String) :
    (lookupRoom st.rooms t = none → broadcastStatus st t = []) ∧
    ∀ c f, Effect.send c f ∈ broadcastStatus st t ↔
      ∃ room, lookupRoom st.rooms t = some room ∧
        (room.desktop = some c ∨ room.web = some c) ∧
        isOpen st c = true ∧
        f = Frame.status room.desktop.isSome room.web.isSome := by
  cases hl : lookupRoom st.rooms t with
  | none =>
    refine ⟨fun _ => by simp [broadcastStatus, hl], fun c f => ?_⟩
    simp [broadcastStatus, hl]
  | some room =>
    refine ⟨fun h => by simp [hl] at h, fun c f => ?_⟩
    simp only [broadcastStatus, hl]
    simp [List.mem_map, List.mem_filter, List.mem_filterMap, hl]
    aesop

/-- C2 amended witness: in the trace state, the open web connection 2
receives the status payload. -/
theorem c2_amended_witness :
    Effect.send 2 (Frame.status true true) ∈ broadcastStatus (runEvents evsC2) "abc" :=
  ((c2_amended (runEvents evsC2) "abc").2 2 (Frame.status true true)).mpr
    ⟨⟨some 1, some 2⟩, by decide, Or.inr (by decide), by decide, by decide⟩

/-! ## C3: rejected admissions -/

/-- C3: a connection arriving with an absent or empty token, or an
absent role, or a role outside desktop/web, receives exactly one error
frame followed by the 1008 policy-violation close with the fixed
reason, its transport leaves the OPEN state, and the room registry is
unchanged. -/
theorem c3_rejected (st : ServerState) (c : ConnId) (token role : Option String)
    (h : token = none ∨ token = some "" ∨ role = none ∨
         (role ≠ some "desktop" ∧ role ≠ some "web")) :
    (step st (Event.connect c token role)).2 =
      [Effect.send c (Frame.error "Invalid token or role"),
       Effect.closeConn c 1008 "Invalid token/role"] ∧
    (step st (Event.connect c token role)).1.rooms = st.rooms ∧
    isOpen ((step st (Event.connect c token role)).1) c = false := by
  have hadm : admissionOk token role = false := by
    rcases h with h | h | h | ⟨h1, h2⟩
    · subst h
      simp [admissionOk, truthyStr]
    · subst h
      simp [admissionOk, truthyStr]
    · subst h
      simp [admissionOk, truthyStr]
    · simp [admissionOk, h1, h2]
  simp only [step, handleConnection, hadm, Bool.false_eq_true, if_false]
  refine ⟨trivial, ?_, ?_⟩
  · unfold closeWs
    rw [rooms_setRState]
  · unfold closeWs setRState
    rw [connOf_setConn_self]
    unfold isOpen
    rw [connOf_setConn_self]

/-- C3 witness: the rejection theorem applied to a connection using
role "phone" on the empty initial state. -/
theorem c3_rejected_witness :
    (step initState (Event.connect 3 (some "abc") (some "phone"))).2 =
      [Effect.send 3 (Frame.error "Invalid token or role"),
       Effect.closeConn 3 1008 "Invalid token/role"] ∧
    (step initState (Event.connect 3 (some "abc") (some "phone"))).1.rooms =
      initState.rooms ∧
    isOpen ((step initState (Event.connect 3 (some "abc") (some "phone"))).1) 3 = false :=
  c3_rejected initState 3 (some "abc") (some "phone")
    (Or.inr (Or.inr (Or.inr ⟨by decide, by decide⟩)))

/-! ## C4: signal forwarding -/

theorem roomSlot_getD (st : ServerState) (t pr : String) :
    Room.get ((lookupRoom st.rooms t).getD Room.empty) pr = roomSlot st t pr := by
  unfold roomSlot
  cases lookupRoom st.rooms t with
  | none => simp [Room.get_empty]
  | some room => simp

/-- C4: a recognized signal frame from an authenticated connection is
forwarded verbatim to the open occupant of the peer slot with nothing
sent to the sender, and when no open peer occupant exists the sender
alone receives one "Peer not connected" error frame; in both cases the
server state is unchanged, so the signal is dropped, never queued. -/
theorem c4_signal_routing (st : ServerState) (c : ConnId) (t r n : String) (m : JsMsg)
    (hauth : authOf st c = some (t, r))
    (htr : m.truthy = true) (hty : m.type = some "signal")
    (hnm : m.name = some n) (hn : n = "signal-1" ∨ n = "signal-2") :
    (step st (Event.message c (InMsg.parsed m))).1 = st ∧
    ((∃ p, roomSlot st t (peerRole r) = some p ∧ isOpen st p = true ∧
        (step st (Event.message c (InMsg.parsed m))).2 = [Effect.send p (Frame.signal n)]) ∨
     ((∀ p, roomSlot st t (peerRole r) = some p → isOpen st p = false) ∧
        (step st (Event.message c (InMsg.parsed m))).2 =
          [Effect.send c (Frame.error "Peer not connected")])) := by
  rcases hn with rfl | rfl <;>
  { cases hsl : roomSlot st t (peerRole r) with
    | none =>
      have hg : Room.get ((lookupRoom st.rooms t).getD Room.empty) (peerRole r) = none := by
        rw [roomSlot_getD]
        exact hsl
      refine ⟨?_, Or.inr ⟨?_, ?_⟩⟩
      · simp [step, hauth, handleMessage, htr, hty, hnm, hg]
      · intro p hp
        exact Option.noConfusion hp
      · simp [step, hauth, handleMessage, htr, hty, hnm, hg]
    | some p =>
      have hg : Room.get ((lookupRoom st.rooms t).getD Room.empty) (peerRole r) = some p := by
        rw [roomSlot_getD]
        exact hsl
      by_cases hop : isOpen st p = true
      · refine ⟨?_, Or.inl ⟨p, rfl, hop, ?_⟩⟩
        · simp [step, hauth, handleMessage, htr, hty, hnm, hg, hop]
        · simp [step, hauth, handleMessage, htr, hty, hnm, hg, hop]
      · have hop' : isOpen st p = false := by simpa using hop
        refine ⟨?_, Or.inr ⟨?_, ?_⟩⟩
        · simp [step, hauth, handleMessage, htr, hty, hnm, hg, hop']
        · intro q hq
          injection hq with hq
          subst hq
          exact hop'
        · simp [step, hauth, handleMessage, htr, hty, hnm, hg, hop'] }

def stC4 : ServerState :=
  runEvents [Event.connect 1 (some "abc") (some "desktop"),
             Event.connect 2 (some "abc") (some "web")]

/-- C4 witness: the routing theorem applied to a room where desktop 1
sends signal-1 while web 2 is connected and open. -/
theorem c4_signal_routing_witness :
    (step stC4 (Event.message 1 (InMsg.parsed ⟨true, some "signal", some "signal-1"⟩))).1 =
      stC4 ∧
    ((∃ p, roomSlot stC4 "abc" (peerRole "desktop") = some p ∧ isOpen stC4 p = true ∧
        (step stC4 (Event.message 1 (InMsg.parsed ⟨true, some "signal", some "signal-1"⟩))).2 =
          [Effect.send p (Frame.signal "signal-1")]) ∨
     ((∀ p, roomSlot stC4 "abc" (peerRole "desktop") = some p → isOpen stC4 p = false) ∧
        (step stC4 (Event.message 1 (InMsg.parsed ⟨true, some "signal", some "signal-1"⟩))).2 =
          [Effect.send 1 (Frame.error "Peer not connected")])) :=
  c4_signal_routing stC4 1 "abc" "desktop" "signal-1" ⟨true, some "signal", some "signal-1"⟩
    (by decide) rfl rfl rfl (Or.inl rfl)

/-! ## C5: successful admission -/

theorem Room.get_set_self (room : Room) (r : String) (v : Option ConnId)
    (hr : r = "desktop" ∨ r = "web") : Room.get (Room.set room r v) r = v := by
  rcases hr with rfl | rfl <;> simp [Room.get, Room.set]

theorem isOpen_update_ne (st : ServerState) (c c' : ConnId) (i : ConnInfo) (h : c' ≠ c) :
    isOpen { st with conns := setConn st.conns c i } c' = isOpen st c' := by
  unfold isOpen
  simp only [connOf_setConn_ne _ _ _ _ h]

theorem authOf_mk_setConn_self (rooms : List (String × Room))
    (conns : List (ConnId × ConnInfo)) (c : ConnId) (i : ConnInfo) :
    authOf ⟨rooms, setConn conns c i⟩ c = i.auth := by
  unfold authOf
  simp [connOf_setConn_self]

theorem isOpen_mk_setConn_open (rooms : List (String × Room))
    (conns : List (ConnId × ConnInfo)) (c : ConnId) (a : Option (String × String)) :
    isOpen ⟨rooms, setConn conns c ⟨RState.OPEN, a⟩⟩ c = true := by
  unfold isOpen
  simp [connOf_setConn_self]

/-- C5: admitting a connection with a non-empty token and a valid role
installs it in the target slot as the authenticated open occupant, and
the emitted effects are exactly: a 4000 "Replaced by new connection"
close for the previous occupant when that occupant's transport was
open (nothing otherwise), then the single acknowledgment frame carrying
the role and token, then the status broadcast for the token on the
post-install state. -/
theorem c5_admit (st : ServerState) (c : ConnId) (t r : String)
    (ht : t ≠ "") (hr : r = "desktop" ∨ r = "web")
    (hfresh : roomSlot st t r ≠ some c) :
    roomSlot ((step st (Event.connect c (some t) (some r))).1) t r = some c ∧
    authOf ((step st (Event.connect c (some t) (some r))).1) c = some (t, r) ∧
    isOpen ((step st (Event.connect c (some t) (some r))).1) c = true ∧
    (step st (Event.connect c (some t) (some r))).2 =
      (match roomSlot st t r with
       | some old =>
         if isOpen st old = true then [Effect.closeConn old 4000 "Replaced by new connection"]
         else []
       | none => [])
      ++ [Effect.send c (Frame.connected r t)]
      ++ broadcastStatus ((step st (Event.connect c (some t) (some r))).1) t := by
  have hadm : admissionOk (some t) (some r) = true := by
    rcases hr with rfl | rfl <;> simp [admissionOk, truthyStr, ht]
  cases hlk : lookupRoom st.rooms t with
  | none =>
    have hslot : roomSlot st t r = none := by simp [roomSlot, hlk]
    rw [hslot]
    simp [step, handleConnection, hadm, getOrCreateRoom, hlk, Room.get_empty,
          lookupRoom_setRoom_self, Room.get_set_self _ _ _ hr, roomSlot,
          authOf_mk_setConn_self, isOpen_mk_setConn_open]
  | some room =>
    have hslot : roomSlot st t r = Room.get room r := by simp [roomSlot, hlk]
    cases hget : Room.get room r with
    | none =>
      rw [hslot, hget]
      simp [step, handleConnection, hadm, getOrCreateRoom, hlk, hget,
            lookupRoom_setRoom_self, Room.get_set_self _ _ _ hr, roomSlot,
            authOf_mk_setConn_self, isOpen_mk_setConn_open]
    | some old =>
      have hne : old ≠ c := by
        intro he
        exact hfresh (by rw [hslot, hget, he])
      rw [hslot, hget]
      by_cases hop : isOpen st old = true
      · simp [step, handleConnection, hadm, getOrCreateRoom, hlk, hget,
              isOpen_update_ne _ _ _ _ hne, hop,
              lookupRoom_setRoom_self, Room.get_set_self _ _ _ hr, roomSlot,
              authOf_mk_setConn_self, isOpen_mk_setConn_open]
      · have hop' : isOpen st old = false := by simpa using hop
        simp [step, handleConnection, hadm, getOrCreateRoom, hlk, hget,
              isOpen_update_ne _ _ _ _ hne, hop',
              lookupRoom_setRoom_self, Room.get_set_self _ _ _ hr, roomSlot,
              authOf_mk_setConn_self, isOpen_mk_setConn_open]

def stC5 : ServerState := runEvents [Event.connect 1 (some "abc") (some "desktop")]

/-- C5 witness: the admission theorem applied to a second desktop
connection for a token whose desktop slot is occupied by the open
connection 1, exercising the eviction path. -/
theorem c5_admit_witness :
    roomSlot ((step stC5 (Event.connect 2 (some "abc") (some "desktop"))).1)
      "abc" "desktop" = some 2 ∧
    authOf ((step stC5 (Event.connect 2 (some "abc") (some "desktop"))).1) 2 =
      some ("abc", "desktop") ∧
    isOpen ((step stC5 (Event.connect 2 (some "abc") (some "desktop"))).1) 2 = true ∧
    (step stC5 (Event.connect 2 (some "abc") (some "desktop"))).2 =
      (match roomSlot stC5 "abc" "desktop" with
       | some old =>
         if isOpen stC5 old = true then [Effect.closeConn old 4000 "Replaced by new connection"]
         else []
       | none => [])
      ++ [Effect.send 2 (Frame.connected "desktop" "abc")]
      ++ broadcastStatus ((step stC5 (Event.connect 2 (some "abc") (some "desktop"))).1)
          "abc" :=
  c5_admit stC5 2 "abc" "desktop" (by decide) (Or.inl rfl) (by decide)

/-! ## C6: at most one open occupant per slot -/

/-- C6: in any state reachable from the empty initial state by
admission, routing, teardown, and transport events, at most one open
connection occupies a given (token, role) slot. -/
theorem c6_at_most_one (evs : List Event) (t r : String) (c c' : ConnId)
    (h : occupies (runEvents evs) t r c) (h' : occupies (runEvents evs) t r c') :
    c = c' := by
  rcases h with ⟨h1, _⟩
  rcases h' with ⟨h2, _⟩
  rw [h1] at h2
  exact Option.some.inj h2

/-- C6 witness: the invariant applied to the slot occupied by
connection 1. -/
theorem c6_at_most_one_witness : (1 : ConnId) = 1 :=
  c6_at_most_one [Event.connect 1 (some "abc") (some "desktop")] "abc" "desktop" 1 1
    (by decide) (by decide)

/-! ## C7: parse failure -/

/-- C7: an unparseable frame from an authenticated connection produces
exactly one "Invalid JSON" error frame to the sender and leaves the
entire server state unchanged, so the connection stays open and no
other connection or room is affected. -/
theorem c7_parse_failure (st : ServerState) (c : ConnId) (t r : String)
    (hauth : authOf st c = some (t, r)) :
    step st (Event.message c InMsg.unparseable) =
      (st, [Effect.send c (Frame.error "Invalid JSON")]) := by
  simp [step, hauth, handleMessage]

def stC7 : ServerState := runEvents [Event.connect 1 (some "abc") (some "desktop")]

/-- C7 witness: the parse-failure theorem applied to connection 1. -/
theorem c7_parse_failure_witness :
    step stC7 (Event.message 1 InMsg.unparseable) =
      (stC7, [Effect.send 1 (Frame.error "Invalid JSON")]) :=
  c7_parse_failure stC7 1 "abc" "desktop" (by decide)

/-! ## C8: unrecognized frame types -/

/-- C8: a parsed frame whose type is neither "signal" nor "ping"
(including an absent type) produces no effect at all: no frame is sent
and the server state is unchanged. -/
theorem c8_unknown_type (st : ServerState) (c : ConnId) (t r : String) (m : JsMsg)
    (hauth : authOf st c = some (t, r))
    (hsig : m.type ≠ some "signal") (hping : m.type ≠ some "ping") :
    step st (Event.message c (InMsg.parsed m)) = (st, []) := by
  simp [step, hauth, handleMessage, hsig, hping]

def stC8 : ServerState := runEvents [Event.connect 1 (some "abc") (some "desktop")]

/-- C8 witness: the no-op theorem applied to a frame of type "hello". -/
theorem c8_unknown_type_witness :
    step stC8 (Event.message 1 (InMsg.parsed ⟨true, some "hello", none⟩)) = (stC8, []) :=
  c8_unknown_type stC8 1 "abc" "desktop" ⟨true, some "hello", none⟩
    (by decide) (by decide) (by decide)

/-! ## C9: message routing never changes occupancy or broadcasts -/

theorem handleMessage_fst (st : ServerState) (c : ConnId) (t r : String) (raw : InMsg) :
    (handleMessage st c t r raw).1 = st := by
  unfold handleMessage
  rcases raw with _ | m
  · rfl
  · dsimp only
    split
    · split
      · split <;> rfl
      · rfl
    · split <;> rfl

theorem handleMessage_no_status (st : ServerState) (c : ConnId) (t r : String)
    (raw : InMsg) (d w : Bool) (p : ConnId) :
    Effect.send p (Frame.status d w) ∉ (handleMessage st c t r raw).2 := by
  unfold handleMessage
  rcases raw with _ | m
  · simp
  · dsimp only
    split
    · split
      · split <;> simp
      · simp
    · split <;> simp

/-- C9: handling an inbound frame (unparseable, signal, ping, or
anything else) leaves the server state — rooms and slot occupancy —
unchanged and never emits a status frame; a status frame can only be
emitted by a connect, close, or error event. -/
theorem c9_broadcast_only_lifecycle (st : ServerState) :
    (∀ c raw, (step st (Event.message c raw)).1 = st ∧
      ∀ d w p, Effect.send p (Frame.status d w) ∉ (step st (Event.message c raw)).2) ∧
    (∀ e p d w, Effect.send p (Frame.status d w) ∈ (step st e).2 →
      (∃ c tk rl, e = Event.connect c tk rl) ∨ (∃ c, e = Event.closeEvt c) ∨
      (∃ c, e = Event.errorEvt c)) := by
  have hmsg : ∀ c raw, (step st (Event.message c raw)).1 = st ∧
      ∀ d w p, Effect.send p (Frame.status d w) ∉ (step st (Event.message c raw)).2 := by
    intro c raw
    cases hauth : authOf st c with
    | none => exact ⟨by simp [step, hauth], fun d w p => by simp [step, hauth]⟩
    | some pr =>
      obtain ⟨t, r⟩ := pr
      have hstep : step st (Event.message c raw) = handleMessage st c t r raw := by
        simp [step, hauth]
      rw [hstep]
      exact ⟨handleMessage_fst st c t r raw,
             fun d w p => handleMessage_no_status st c t r raw d w p⟩
  refine ⟨hmsg, ?_⟩
  intro e p d w hmem
  cases e with
  | connect c tk rl => exact Or.inl ⟨c, tk, rl, rfl⟩
  | message c raw => exact absurd hmem ((hmsg c raw).2 d w p)
  | closeEvt c => exact Or.inr (Or.inl ⟨c, rfl⟩)
  | errorEvt c => exact Or.inr (Or.inr ⟨c, rfl⟩)
  | transportFail c => simp [step] at hmem

def stC9 : ServerState := runEvents [Event.connect 1 (some "abc") (some "desktop")]

/-- C9 witness: the routing theorem applied to an unparseable frame on
connection 1. -/
theorem c9_broadcast_only_lifecycle_witness :
    (step stC9 (Event.message 1 InMsg.unparseable)).1 = stC9 :=
  ((c9_broadcast_only_lifecycle stC9).1 1 InMsg.unparseable).1

/-! ## C10: signal frames with an unrecognized name -/

/-- C10: a parsed frame of type "signal" whose name is neither
"signal-1" nor "signal-2" is silently ignored — nothing is forwarded,
the sender gets no error frame, and the state is unchanged — exactly
like an unrecognized type, regardless of whether an open peer exists. -/
theorem c10_unknown_signal_name (st : ServerState) (c : ConnId) (t r : String) (m : JsMsg)
    (hauth : authOf st c = some (t, r))
    (hty : m.type = some "signal")
    (h1 : m.name ≠ some "signal-1") (h2 : m.name ≠ some "signal-2") :
    step st (Event.message c (InMsg.parsed m)) = (st, []) := by
  simp [step, hauth, handleMessage, hty, h1, h2]

def stC10 : ServerState :=
  runEvents [Event.connect 1 (some "abc") (some "desktop"),
             Event.connect 2 (some "abc") (some "web")]

/-- C10 witness: the theorem applied to signal name "signal-9" sent by
desktop 1 while the peer web connection 2 is open. -/
theorem c10_unknown_signal_name_witness :
    isOpen stC10 2 = true ∧
    step stC10 (Event.message 1 (InMsg.parsed ⟨true, some "signal", some "signal-9"⟩)) =
      (stC10, []) :=
  ⟨by decide,
   c10_unknown_signal_name stC10 1 "abc" "desktop" ⟨true, some "signal", some "signal-9"⟩
     (by decide) rfl (by decide) (by decide)⟩

end WsRelay
